import Mathlib

/-
Verification of the concurrent work-channel subsystem of the Modern-Cpp-Cookbook
repository (Chapter 8 recipes 8.02, 8.05, 8.06), against its natural-language
specification.

The C++ sources are shallowly embedded:

* `SQ` models `src/Chapter08/recipe_8_05.h`.  The lock-protected regions of the
  producer, the consumer and the main thread are the atomic actions of a
  small-step transition system over `SQ.QState`; an execution is a list of
  actions interpreted by `SQ.run`.  The producer threads are generalised to a
  list of per-producer scripts of values (the concrete program uses five
  producers with three pseudo-random values `id * 100 + code` each, which is
  captured by `SQ.producedValue`).  The consumer's `wait_for` may return at any
  time (it has a 1-second timeout, and spurious wakeups are permitted), so the
  wake transition is unconditionally enabled in the waiting state; everything
  the consumer does between reacquiring the lock and releasing it (the whole
  inner drain loop) is one atomic action.  The syntactic order of the primitive
  operations inside the producer's critical section and inside the main
  thread's shutdown is recorded by `SQ.pushOps` and `SQ.shutdownOps`.

* `RC` models `src/Chapter08/recipe_8_06.h`.  The std::promise / std::future
  shared state is not part of the repository sources, so the `ResultChannel`
  slot is modelled from the specification's words; the repository functions
  `produce_value` and `consume_value` are embedded on top of it.

* `EB` models `src/Chapter08/recipe_8_02.h`: worker bodies are `Except`
  computations, the top-level thread functions catch everything and deposit the
  captured exception into the shared vector, and the main thread's reporting
  loop rethrows and catches each deposited exception.
-/

namespace ModernCpp

namespace SQ

/-- Primitive operations appearing inside a critical section or a shutdown
sequence of recipe 8.05, used to record their syntactic order. -/
inductive PrimOp
  | lockQueue
  | unlockQueue
  | appendItem
  | notifyOne
  | notifyAll
  | storeDone
  deriving DecidableEq, BEq, Repr

/-- The producer's critical section (recipe_8_05.h lines 56-65): the
`unique_lock` is acquired, the value is pushed, `notify_one` is called, and the
lock is released at the end of the block scope. -/
def pushOps : List PrimOp :=
  [PrimOp.lockQueue, PrimOp.appendItem, PrimOp.notifyOne, PrimOp.unlockQueue]

/-- The main thread's shutdown (recipe_8_05.h line 133): the single statement
`g_done = true;` with no lock acquisition and no notification. -/
def shutdownOps : List PrimOp :=
  [PrimOp.storeDone]

/-- Modelled from the spec: the specified `close()` is absent from the sources;
per the spec it acquires the lock, sets shutdown and notifies all waiters. -/
def closeSpecOps : List PrimOp :=
  [PrimOp.lockQueue, PrimOp.storeDone, PrimOp.notifyAll, PrimOp.unlockQueue]

/-- Whether `b` occurs strictly after the first occurrence of `a` in `ops`. -/
def occursAfterFirst (ops : List PrimOp) (a b : PrimOp) : Bool :=
  ((ops.dropWhile fun x => x != a).drop 1).contains b

/-- The timeout, in seconds, of the consumer's `wait_for` call
(recipe_8_05.h line 82). -/
def waitTimeoutSeconds : Nat := 1

/-- The predicate of the consumer's `wait_for` call (recipe_8_05.h line 82):
the wait ends (apart from the timeout) exactly when the buffer is non-empty.
The shutdown flag does not appear in it. -/
def waitUntilCond (buffer : List Int) : Bool :=
  !buffer.isEmpty

/-- Modelled from the spec: the specified stop-waiting condition of
`pop_blocking`, the negation of the wait-while predicate
"(sequence empty) AND NOT shutdown". -/
def specWaitUntilCond (buffer : List Int) (done : Bool) : Bool :=
  !buffer.isEmpty || done

/-- Control state of the consumer thread of recipe 8.05: about to test the
loop condition `!g_done`, blocked inside `wait_for`, or exited. -/
inductive CStatus
  | checking
  | waiting
  | finished
  deriving DecidableEq, Repr

/-- Global state of recipe 8.05: the values each producer has yet to push, the
shared queue `g_buffer`, the values the consumer has taken off the queue so
far (in order), the flag `g_done`, and the consumer's control state. -/
structure QState where
  remaining : List (List Int)
  buffer : List Int
  consumed : List Int
  done : Bool
  cpc : CStatus
  deriving DecidableEq, Repr

/-- Atomic actions: producer `p` performs its next push (its whole critical
section), the consumer tests the loop condition, the consumer's `wait_for`
returns (by notification, timeout or spurious wakeup) and the inner loop
drains the queue under the lock, or the main thread (after joining all
producers) stores `g_done = true`. -/
inductive Act
  | push (p : Nat)
  | check
  | wakeDrain
  | setDone
  deriving DecidableEq, Repr

/-- One atomic step of recipe 8.05; `none` when the action is not enabled. -/
def step (s : QState) : Act → Option QState
  | Act.push p =>
    match s.remaining.getD p [] with
    | [] => none
    | v :: rest =>
      some { s with remaining := s.remaining.set p rest, buffer := s.buffer ++ [v] }
  | Act.check =>
    match s.cpc with
    | CStatus.checking =>
      some { s with cpc := if s.done then CStatus.finished else CStatus.waiting }
    | _ => none
  | Act.wakeDrain =>
    match s.cpc with
    | CStatus.waiting =>
      some { s with consumed := s.consumed ++ s.buffer, buffer := [], cpc := CStatus.checking }
    | _ => none
  | Act.setDone =>
    if s.remaining.all List.isEmpty && !s.done then some { s with done := true } else none

/-- Run a sequence of actions from a state. -/
def run (s : QState) : List Act → Option QState
  | [] => some s
  | a :: acts =>
    match step s a with
    | none => none
    | some s2 => run s2 acts

/-- The initial state of `execute`: every producer still has its whole script,
the queue is empty, nothing is consumed, `g_done` is false, and the consumer
is about to test its loop condition. -/
def initState (scripts : List (List Int)) : QState :=
  { remaining := scripts, buffer := [], consumed := [], done := false, cpc := CStatus.checking }

/-- `own` recovers the producer index from every value of every script. -/
def owns (own : Int → Nat) (scripts : List (List Int)) : Prop :=
  ∀ p, p < scripts.length → ∀ v, v ∈ scripts.getD p [] → own v = p

/-- Invariant of the transition system: the producer count never changes, and
for every producer `p`, the items of `p` already consumed, followed by the
items of `p` still in the queue, followed by the items `p` has yet to push,
are exactly `p`'s script, in order. -/
def inv (own : Int → Nat) (scripts : List (List Int)) (s : QState) : Prop :=
  s.remaining.length = scripts.length ∧
    ∀ p, (s.consumed.filter fun v => own v == p) ++ (s.buffer.filter fun v => own v == p) ++
      s.remaining.getD p [] = scripts.getD p []

/-- The value a producer with the given id generates on one iteration
(recipe_8_05.h line 48), where `code` is drawn from the
uniform distribution on `dcodeLo .. dcodeHi` (line 114). -/
def producedValue (id code : Nat) : Nat := id * 100 + code

/-- Lower bound of the `dcode` distribution (recipe_8_05.h line 114). -/
def dcodeLo : Nat := 1

/-- Upper bound of the `dcode` distribution (recipe_8_05.h line 114). -/
def dcodeHi : Nat := 99

/-- Producer-id recovery function matching `producedValue`. -/
def ownDiv100 : Int → Nat := fun v => (v / 100).toNat

/-- Scripts of a two-producer run used as a concrete witness. -/
def scriptsW : List (List Int) := [[5], [105]]

/-- Actions of a complete two-producer run: both pushes, one consumer round
trip that drains both items, shutdown, and the consumer's final loop test. -/
def actsW : List Act := [Act.push 0, Act.push 1, Act.check, Act.wakeDrain, Act.setDone, Act.check]

/-- The final state of the witness run. -/
def finalW : QState :=
  { remaining := [[], []], buffer := [], consumed := [5, 105], done := true,
    cpc := CStatus.finished }

/-- Actions of a run in which the consumer drains the first item, then the
producer's second push, the shutdown flag and the consumer's loop test
interleave so that the second item is never consumed. -/
def actsLost : List Act := [Act.push 0, Act.check, Act.wakeDrain, Act.push 0, Act.setDone, Act.check]

/-- The final state of the lost-item run: item 8 is still in the queue, the
flag is set, and the consumer has exited. -/
def finalLost : QState :=
  { remaining := [[]], buffer := [8], consumed := [7], done := true, cpc := CStatus.finished }

/-- Actions of a run in which the producer pushes, shutdown is set, and only
then does the consumer test its loop condition. -/
def actsClosedNonempty : List Act := [Act.push 0, Act.setDone, Act.check]

/-- The final state of that run: the queue is closed and non-empty, and the
consumer has exited without consuming anything. -/
def finalClosedNonempty : QState :=
  { remaining := [[]], buffer := [9], consumed := [], done := true, cpc := CStatus.finished }

/-- A state in which the consumer is blocked waiting on an empty queue with
the shutdown flag already set. -/
def qEmptyDoneWaiting : QState :=
  { remaining := [[]], buffer := [], consumed := [8], done := true, cpc := CStatus.waiting }

/-- A state in which the consumer is blocked waiting on an empty open queue. -/
def qWaitingOpen : QState :=
  { remaining := [[]], buffer := [], consumed := [], done := false, cpc := CStatus.waiting }

/-- The state after the main thread's shutdown step from `qWaitingOpen`: the
flag is set but the consumer is still waiting. -/
def qWaitingClosed : QState :=
  { remaining := [[]], buffer := [], consumed := [], done := true, cpc := CStatus.waiting }

/-- A state with the consumer mid-iteration (blocked in `wait_for`) while the
queue holds two items and shutdown is already set. -/
def qDrainInProgress : QState :=
  { remaining := [[]], buffer := [4, 6], consumed := [2], done := true, cpc := CStatus.waiting }

end SQ

namespace RC

/-- Modelled from the spec: the shared-state slot of the promise/future pair of
recipe 8.06 (the std::promise internals are not part of the repository
sources); it holds at most one of unset, a value, or an error payload. -/
inductive Slot
  | unset
  | value (v : Int)
  | errorPayload (e : String)
  deriving DecidableEq, Repr

/-- Modelled from the spec: a result channel is a slot together with the
one-shot-fulfilled flag. -/
structure ResultChannel where
  slot : Slot
  fulfilled : Bool
  deriving DecidableEq, Repr

/-- The failure a second fulfilment raises (std::future_errc
promise_already_satisfied; `AlreadySatisfied` in the spec). -/
inductive PromiseError
  | alreadySatisfied
  deriving DecidableEq, Repr

/-- Modelled from the spec: `set_value` fails with `AlreadySatisfied` when the
slot is already fulfilled, and otherwise stores the value and marks the
channel fulfilled (the std::promise implementation is not in the sources). -/
def set_value (c : ResultChannel) (v : Int) : Except PromiseError ResultChannel :=
  if c.fulfilled then Except.error PromiseError.alreadySatisfied
  else Except.ok { slot := Slot.value v, fulfilled := true }

/-- Modelled from the spec: `get` blocks until the slot is fulfilled and then
returns the stored value; `none` stands for a read that would still block. -/
def get (c : ResultChannel) : Option Int :=
  match c.slot with
  | Slot.value v => some v
  | _ => none

/-- Modelled from the spec: `get` together with the state of the channel after
the read — per the spec the read does not consume the slot. -/
def getS (c : ResultChannel) : Option (Int × ResultChannel) :=
  match c.slot with
  | Slot.value v => some (v, c)
  | _ => none

/-- `produce_value` of recipe_8_06.h (lines 22-35): sets the value 42. -/
def produce_value (p : ResultChannel) : Except PromiseError ResultChannel :=
  set_value p 42

/-- `consume_value` of recipe_8_06.h (lines 39-48): reads the value. -/
def consume_value (f : ResultChannel) : Option Int :=
  get f

/-- A freshly created channel (`std::promise<int> p;` in `execute`). -/
def freshChannel : ResultChannel :=
  { slot := Slot.unset, fulfilled := false }

/-- The channel after the first successful `set_value 42`. -/
def chanAfterFirst : ResultChannel :=
  { slot := Slot.value 42, fulfilled := true }

end RC

namespace EB

/-- The exceptions thrown in recipe 8.02 are `std::runtime_error`s carrying a
message. -/
inductive CppExc
  | runtimeError (msg : String)
  deriving DecidableEq, Repr

/-- `func1` of recipe_8_02.h (lines 31-34): throws runtime_error
"exception 1". -/
def func1 : Except CppExc Unit :=
  Except.error (CppExc.runtimeError "exception 1")

/-- `func2` of recipe_8_02.h (lines 36-39): throws runtime_error
"exception 2". -/
def func2 : Except CppExc Unit :=
  Except.error (CppExc.runtimeError "exception 2")

/-- The shape shared by `thread_func1` and `thread_func2` (lines 41-74): run
the body inside `try`, and in `catch (...)` append the captured exception to
the shared vector `g_exceptions` under `g_mutex`.  The result is `Except.ok`
exactly when nothing unwinds past the top-level thread function. -/
def catchAllDeposit (body : Except CppExc Unit) (box : List CppExc) :
    Except CppExc (List CppExc) :=
  match body with
  | Except.ok _ => Except.ok box
  | Except.error e => Except.ok (box ++ [e])

/-- `thread_func1` of recipe_8_02.h (lines 41-63). -/
def thread_func1 (box : List CppExc) : Except CppExc (List CppExc) :=
  catchAllDeposit func1 box

/-- `thread_func2` of recipe_8_02.h (lines 65-74). -/
def thread_func2 (box : List CppExc) : Except CppExc (List CppExc) :=
  catchAllDeposit func2 box

/-- The message carried by a captured exception (`ex.what()`). -/
def excMessage : CppExc → String
  | CppExc.runtimeError m => m

/-- One iteration of the reporting loop of `execute` (lines 91-101): rethrow
the deposited exception and catch it as `std::exception const&`, yielding the
message that is printed; every deposited exception is a runtime_error, hence
is caught. -/
def rethrowAndCatch (e : CppExc) : Except CppExc String :=
  match e with
  | CppExc.runtimeError m => Except.ok m

/-- The whole reporting loop of `execute`: report the deposited exceptions in
vector order; an uncaught rethrow would surface as `Except.error`. -/
def reportAll : List CppExc → Except CppExc (List String)
  | [] => Except.ok []
  | e :: rest =>
    match rethrowAndCatch e with
    | Except.error ex => Except.error ex
    | Except.ok m =>
      match reportAll rest with
      | Except.error ex => Except.error ex
      | Except.ok ms => Except.ok (m :: ms)

/-- The contents of `g_exceptions` after both worker threads have been joined;
the two deposits are serialised by `g_mutex`, and `t1First` records which
thread acquired it first. -/
def finalBox (t1First : Bool) : Except CppExc (List CppExc) :=
  if t1First then
    match thread_func1 [] with
    | Except.error e => Except.error e
    | Except.ok b => thread_func2 b
  else
    match thread_func2 [] with
    | Except.error e => Except.error e
    | Except.ok b => thread_func1 b

/-- `execute` of recipe_8_02.h (lines 76-102) after clearing the container:
run both workers, then run the reporting loop over the deposited exceptions;
the result is the list of reported messages, or `Except.error` if any raw
exception reached the main thread. -/
def executeReport (t1First : Bool) : Except CppExc (List String) :=
  match finalBox t1First with
  | Except.error e => Except.error e
  | Except.ok box => reportAll box

end EB

namespace SQ

theorem getD_set_self {α : Type} (l : List α) (p : Nat) (x d : α) (h : p < l.length) :
    (l.set p x).getD p d = x := by
  induction l generalizing p with
  | nil => simp at h
  | cons a t ih =>
    cases p with
    | zero => rfl
    | succ q => exact ih q (Nat.lt_of_succ_lt_succ h)

theorem getD_set_ne {α : Type} (l : List α) (p q : Nat) (x d : α) (h : p ≠ q) :
    (l.set p x).getD q d = l.getD q d := by
  induction l generalizing p q with
  | nil => rfl
  | cons a t ih =>
    cases p with
    | zero =>
      cases q with
      | zero => exact absurd rfl h
      | succ j => rfl
    | succ i =>
      cases q with
      | zero => rfl
      | succ j => exact ih i j fun hij => h (congrArg Nat.succ hij)

theorem take_len_append {α : Type} (l1 l2 : List α) : (l1 ++ l2).take l1.length = l1 := by
  induction l1 with
  | nil => rfl
  | cons a t ih => simp [ih]

theorem lt_length_of_getD_ne_nil (l : List (List Int)) (p : Nat) (h : l.getD p [] ≠ []) :
    p < l.length := by
  by_contra hc
  exact h (List.getD_eq_default l [] (Nat.le_of_not_lt hc))

theorem step_inv (own : Int → Nat) (scripts : List (List Int)) (s s1 : QState) (a : Act)
    (H : owns own scripts) (hs : inv own scripts s) (hstep : step s a = some s1) :
    inv own scripts s1 := by
  obtain ⟨hlen, hinv⟩ := hs
  cases a with
  | push p0 =>
    obtain hm | ⟨v, rest, hm⟩ : s.remaining.getD p0 [] = [] ∨
        ∃ v rest, s.remaining.getD p0 [] = v :: rest := by
      cases s.remaining.getD p0 [] with
      | nil => exact Or.inl rfl
      | cons v2 r2 => exact Or.inr ⟨v2, r2, rfl⟩
    · simp only [step, hm] at hstep
      exact Option.noConfusion hstep
    · simp only [step, hm] at hstep
      injection hstep with hstep
      subst hstep
      have hp0 : p0 < s.remaining.length := lt_length_of_getD_ne_nil _ _ (by rw [hm]; simp)
      have hps : p0 < scripts.length := hlen ▸ hp0
      have hinv0 := hinv p0
      rw [hm] at hinv0
      have hv : v ∈ scripts.getD p0 [] := by
        rw [← hinv0]; simp
      have hov : own v = p0 := H p0 hps v hv
      constructor
      · simpa [List.length_set] using hlen
      · intro p
        by_cases hp : p = p0
        · subst hp
          rw [getD_set_self _ _ _ _ hp0, List.filter_append]
          have hfv : (List.filter (fun v2 => own v2 == p) [v]) = [v] := by simp [hov]
          rw [hfv, ← hinv0]
          simp
        · rw [getD_set_ne _ _ _ _ _ (Ne.symm hp), List.filter_append]
          have hfv : (List.filter (fun v2 => own v2 == p) [v]) = [] := by
            simp [hov, Ne.symm hp]
          rw [hfv]
          simpa using hinv p
  | check =>
    cases hcp : s.cpc with
    | checking =>
      simp only [step, hcp] at hstep
      injection hstep with hstep
      subst hstep
      exact ⟨hlen, hinv⟩
    | waiting => simp [step, hcp] at hstep
    | finished => simp [step, hcp] at hstep
  | wakeDrain =>
    cases hcp : s.cpc with
    | checking => simp [step, hcp] at hstep
    | waiting =>
      simp only [step, hcp] at hstep
      injection hstep with hstep
      subst hstep
      constructor
      · exact hlen
      · intro p
        simpa [List.filter_append, List.append_assoc] using hinv p
    | finished => simp [step, hcp] at hstep
  | setDone =>
    simp only [step] at hstep
    split at hstep
    · injection hstep with hstep
      subst hstep
      exact ⟨hlen, hinv⟩
    · exact absurd hstep (by simp)

theorem run_inv (own : Int → Nat) (scripts : List (List Int)) (H : owns own scripts) :
    ∀ (acts : List Act) (s s1 : QState), inv own scripts s → run s acts = some s1 →
      inv own scripts s1 := by
  intro acts
  induction acts with
  | nil =>
    intro s s1 hs h
    simp only [run] at h
    injection h with h
    subst h
    exact hs
  | cons a acts ih =>
    intro s s1 hs h
    cases hstep : step s a with
    | none => simp [run, hstep] at h
    | some s2 =>
      simp only [run, hstep] at h
      exact ih s2 s1 (step_inv own scripts s s2 a H hs hstep) h

theorem initState_inv (own : Int → Nat) (scripts : List (List Int)) :
    inv own scripts (initState scripts) := by
  constructor
  · rfl
  · intro p
    simp [initState]

/-- Claim C1 (amended): in every execution, per-producer relative order is
preserved and no item is duplicated or invented — for every producer `p`, the
subsequence of the consumer's observations belonging to `p` is an initial
segment, in order, of the sequence `p` pushed.  The original claim's
"every pushed item is dequeued exactly once, including items still queued when
the shutdown flag is set" does not hold of the code (see the counterexample):
the consumer's loop test exits on `g_done` without draining, so queued items
can be lost. -/
theorem queue_per_producer_prefix (own : Int → Nat) (scripts : List (List Int))
    (acts : List Act) (s1 : QState) (H : owns own scripts)
    (h : run (initState scripts) acts = some s1) (p : Nat) :
    (scripts.getD p []).take ((s1.consumed.filter fun v => own v == p).length)
      = s1.consumed.filter fun v => own v == p := by
  obtain ⟨hlen, hinv⟩ := run_inv own scripts H acts _ s1 (initState_inv own scripts) h
  rw [← hinv p, List.append_assoc]
  exact take_len_append _ _

/-- Witness for C1's theorem at a concrete two-producer execution. -/
theorem queue_per_producer_prefix_witness :
    owns ownDiv100 scriptsW ∧
    (scriptsW.getD 0 []).take ((finalW.consumed.filter fun v => ownDiv100 v == 0).length)
      = finalW.consumed.filter fun v => ownDiv100 v == 0 := by
  have hH : owns ownDiv100 scriptsW := by
    unfold owns
    decide
  exact ⟨hH, queue_per_producer_prefix ownDiv100 scriptsW actsW finalW hH (by decide) 0⟩

/-- Counterexample to claim C1 as stated: a complete execution (all pushes
done, shutdown flag set, consumer exited) in which the pushed item 8 is never
dequeued — it is still sitting in the buffer when the consumer exits. -/
theorem queue_item_lost_cex :
    run (initState [[7, 8]]) actsLost = some finalLost ∧
    finalLost.done = true ∧
    finalLost.cpc = CStatus.finished ∧
    finalLost.remaining.all List.isEmpty = true ∧
    finalLost.consumed.count 8 = 0 ∧
    finalLost.buffer.count 8 = 1 := by decide

/-- Claim C2 (amended): the predicate re-evaluated by the consumer's
`wait_for` on every wakeup is only "the sequence is non-empty" — it does not
consult the shutdown flag (the wait is instead bounded by a timeout); and when
the consumer wakes with an empty sequence while shutdown is set, it exits its
loop normally, consuming nothing and producing no `Closed` failure (no such
failure exists in the code). -/
theorem wait_predicate_amended :
    (∀ b : List Int, (waitUntilCond b = true ↔ b ≠ [])) ∧
    (∀ s : QState, s.cpc = CStatus.waiting → s.buffer = [] → s.done = true →
      run s [Act.wakeDrain, Act.check] = some { s with cpc := CStatus.finished }) := by
  constructor
  · intro b
    cases b <;> simp [waitUntilCond]
  · intro s h1 h2 h3
    simp [run, step, h1, h2, h3]

/-- Witness for C2's theorem: a consumer waiting on an empty, closed queue
wakes (timeout), drains nothing, and exits its loop. -/
theorem wait_predicate_amended_witness :
    run qEmptyDoneWaiting [Act.wakeDrain, Act.check]
      = some { qEmptyDoneWaiting with cpc := CStatus.finished } :=
  wait_predicate_amended.2 qEmptyDoneWaiting rfl rfl rfl

/-- Counterexample to claim C2 as stated: on an empty buffer with the shutdown
flag set, the claimed predicate says to stop waiting (and fail with `Closed`),
but the code's `wait_for` predicate says to keep waiting — it ignores the
flag. -/
theorem wait_predicate_ignores_shutdown_cex :
    waitUntilCond [] = false ∧
    specWaitUntilCond [] true = true ∧
    waitUntilCond [] ≠ specWaitUntilCond [] true := by decide

/-- Claim C3 (amended): the shutdown performed by the main thread only stores
the flag — it acquires no lock and performs no notification, so it does not by
itself wake the blocked consumer; the consumer is nevertheless not permanently
blocked, because its wait has a positive (1 second) timeout, so the wake
transition is enabled in every waiting state. -/
theorem close_sets_flag_only_amended :
    (∀ s s1 : QState, step s Act.setDone = some s1 →
      s1.done = true ∧ s1.cpc = s.cpc ∧ s1.buffer = s.buffer ∧ s1.consumed = s.consumed) ∧
    (∀ s : QState, s.cpc = CStatus.waiting →
      Option.map QState.cpc (step s Act.wakeDrain) = some CStatus.checking) ∧
    0 < waitTimeoutSeconds := by
  refine ⟨?_, ?_, by decide⟩
  · intro s s1 h
    simp only [step] at h
    split at h
    · injection h with h
      subst h
      exact ⟨rfl, rfl, rfl, rfl⟩
    · exact Option.noConfusion h
  · intro s h
    simp [step, h]

/-- Witness for C3's theorem at a concrete waiting state. -/
theorem close_sets_flag_only_amended_witness :
    (qWaitingClosed.done = true ∧ qWaitingClosed.cpc = qWaitingOpen.cpc ∧
      qWaitingClosed.buffer = qWaitingOpen.buffer ∧
      qWaitingClosed.consumed = qWaitingOpen.consumed) ∧
    Option.map QState.cpc (step qWaitingClosed Act.wakeDrain) = some CStatus.checking :=
  ⟨close_sets_flag_only_amended.1 qWaitingOpen qWaitingClosed rfl,
   close_sets_flag_only_amended.2.1 qWaitingClosed rfl⟩

/-- Counterexample to claim C3 as stated: the code's shutdown sequence
contains no notification and no lock acquisition (unlike the spec-modelled
close), and the shutdown step leaves a blocked consumer still waiting. -/
theorem close_does_not_notify_cex :
    shutdownOps.contains PrimOp.notifyAll = false ∧
    shutdownOps.contains PrimOp.notifyOne = false ∧
    shutdownOps.contains PrimOp.lockQueue = false ∧
    closeSpecOps.contains PrimOp.notifyAll = true ∧
    step qWaitingOpen Act.setDone = some qWaitingClosed ∧
    qWaitingClosed.cpc = CStatus.waiting := by decide

/-- Claim C4 (amended): after the shutdown flag is set, a consumer that is
already inside its loop iteration (blocked in `wait_for`) still drains every
item currently queued, in FIFO order; but a consumer at its loop test that
observes the flag exits immediately — even if the queue is non-empty — and an
empty-and-closed queue causes a normal loop exit, never a `Closed` failure
(no such failure exists in the code). -/
theorem closed_queue_drain_amended (s : QState) :
    (s.cpc = CStatus.waiting →
      step s Act.wakeDrain
        = some { s with consumed := s.consumed ++ s.buffer,
                        buffer := [], cpc := CStatus.checking }) ∧
    (s.cpc = CStatus.checking → s.done = true →
      step s Act.check = some { s with cpc := CStatus.finished }) := by
  constructor
  · intro h
    simp [step, h]
  · intro h1 h2
    simp [step, h1, h2]

/-- Witness for C4's theorem: with shutdown already set and two items queued,
the in-progress iteration still drains both items. -/
theorem closed_queue_drain_amended_witness :
    step qDrainInProgress Act.wakeDrain
      = some { qDrainInProgress with consumed := qDrainInProgress.consumed ++ qDrainInProgress.buffer,
                                     buffer := [], cpc := CStatus.checking } :=
  (closed_queue_drain_amended qDrainInProgress).1 rfl

/-- Counterexample to claim C4 as stated: an execution reaching a closed,
non-empty queue from which nothing is ever dequeued — the consumer observes
the flag at its loop test and halts with item 9 still queued, and no further
consumer step is enabled. -/
theorem closed_nonempty_not_delivered_cex :
    run (initState [[9]]) actsClosedNonempty = some finalClosedNonempty ∧
    finalClosedNonempty.done = true ∧
    finalClosedNonempty.buffer = [9] ∧
    finalClosedNonempty.consumed = [] ∧
    finalClosedNonempty.cpc = CStatus.finished ∧
    step finalClosedNonempty Act.check = none ∧
    step finalClosedNonempty Act.wakeDrain = none := by decide

/-- Claim C9 (amended): every push acquires the lock, appends the item to the
back of the sequence, signals `notify_one` while still holding the lock, and
only then releases the lock; exactly one signal is issued per push (never
dropped). -/
theorem push_appends_and_signals_under_lock_amended :
    occursAfterFirst pushOps PrimOp.lockQueue PrimOp.appendItem = true ∧
    occursAfterFirst pushOps PrimOp.appendItem PrimOp.notifyOne = true ∧
    occursAfterFirst pushOps PrimOp.notifyOne PrimOp.unlockQueue = true ∧
    pushOps.count PrimOp.notifyOne = 1 ∧
    (∀ s : QState, ∀ p : Nat, ∀ v : Int, ∀ rest : List Int,
      s.remaining.getD p [] = v :: rest →
      Option.map QState.buffer (step s (Act.push p)) = some (s.buffer ++ [v])) := by
  refine ⟨by decide, by decide, by decide, by decide, ?_⟩
  intro s p v rest h
  simp only [step, h]
  rfl

/-- Witness for C9's theorem: the first push of a one-producer run appends its
value at the back of the buffer. -/
theorem push_appends_and_signals_under_lock_amended_witness :
    Option.map QState.buffer (step (initState [[7]]) (Act.push 0))
      = some ((initState [[7]]).buffer ++ [7]) :=
  push_appends_and_signals_under_lock_amended.2.2.2.2 (initState [[7]]) 0 7 [] rfl

/-- Counterexample to claim C9 as stated: in the producer's critical section
nothing at all occurs after the lock release — in particular the signal does
not; the signal is issued before the unlock, while the lock is held. -/
theorem push_signal_not_after_unlock_cex :
    occursAfterFirst pushOps PrimOp.unlockQueue PrimOp.notifyOne = false ∧
    occursAfterFirst pushOps PrimOp.notifyOne PrimOp.unlockQueue = true := by decide

/-- Claim C10: every value a producer generates is `id * 100 + code` with
`code` drawn from 1..99, so the producer id is recovered by dividing by 100,
and the value sets of distinct producers are disjoint. -/
theorem produced_value_partition (id code id2 code2 : Nat)
    (h1 : dcodeLo ≤ code) (h2 : code ≤ dcodeHi)
    (h3 : dcodeLo ≤ code2) (h4 : code2 ≤ dcodeHi) :
    producedValue id code / 100 = id ∧
    (id ≠ id2 → producedValue id code ≠ producedValue id2 code2) := by
  simp only [producedValue, dcodeLo, dcodeHi] at *
  constructor
  · omega
  · intro hne
    omega

/-- Witness for C10's theorem at the extreme codes of the distribution. -/
theorem produced_value_partition_witness :
    producedValue 4 99 / 100 = 4 ∧ (4 ≠ 0 → producedValue 4 99 ≠ producedValue 0 1) :=
  produced_value_partition 4 99 0 1 (by decide) (by decide) (by decide) (by decide)

end SQ

namespace RC

/-- Claim C5: once a channel has been fulfilled by a first `set_value`, a
second `set_value` fails with `AlreadySatisfied` — it is not ignored and does
not overwrite — and the first value is still retrievable via `get`. -/
theorem set_value_second_fails (c c1 : ResultChannel) (v w : Int)
    (h : set_value c v = Except.ok c1) :
    set_value c1 w = Except.error PromiseError.alreadySatisfied ∧ get c1 = some v := by
  unfold set_value at h
  split at h
  · exact Except.noConfusion h
  · injection h with h
    subst h
    exact ⟨rfl, rfl⟩

/-- Witness for C5's theorem on the channel of recipe 8.06, fulfilled with
42. -/
theorem set_value_second_fails_witness :
    set_value chanAfterFirst 7 = Except.error PromiseError.alreadySatisfied ∧
    get chanAfterFirst = some 42 :=
  set_value_second_fails freshChannel chanAfterFirst 42 7 rfl

/-- Claim C6: after a single successful `set_value`, `get` is an idempotent,
non-consuming read — it returns the stored value and leaves the channel
unchanged, and a further `get` on the resulting channel returns the identical
value again. -/
theorem get_idempotent_nonconsuming (c c1 : ResultChannel) (v : Int)
    (h : set_value c v = Except.ok c1) :
    getS c1 = some (v, c1) ∧ consume_value c1 = some v ∧
    ∀ r : Int × ResultChannel, getS c1 = some r → getS r.2 = some (v, c1) := by
  unfold set_value at h
  split at h
  · exact Except.noConfusion h
  · injection h with h
    subst h
    refine ⟨rfl, rfl, ?_⟩
    intro r hr
    injection hr with hr
    cases hr
    rfl

/-- Witness for C6's theorem on the channel of recipe 8.06, fulfilled with
42. -/
theorem get_idempotent_nonconsuming_witness :
    getS chanAfterFirst = some (42, chanAfterFirst) ∧
    consume_value chanAfterFirst = some 42 := by
  have h := get_idempotent_nonconsuming freshChannel chanAfterFirst 42 rfl
  exact ⟨h.1, h.2.1⟩

end RC

namespace EB

/-- Claim C7: no failure unwinds past a worker's top-level thread function —
for every worker body, the catch-all produces a normal return, any escaping
failure is deposited into the shared container, and in particular both thread
functions of recipe 8.02 return normally after depositing their exception. -/
theorem worker_never_unwinds (body : Except CppExc Unit) (box : List CppExc) :
    (∃ box2, catchAllDeposit body box = Except.ok box2) ∧
    (∀ e, body = Except.error e → catchAllDeposit body box = Except.ok (box ++ [e])) ∧
    thread_func1 box = Except.ok (box ++ [CppExc.runtimeError "exception 1"]) ∧
    thread_func2 box = Except.ok (box ++ [CppExc.runtimeError "exception 2"]) := by
  refine ⟨?_, ?_, rfl, rfl⟩
  · cases body with
    | ok u => exact ⟨box, rfl⟩
    | error e => exact ⟨box ++ [e], rfl⟩
  · intro e he
    subst he
    rfl

/-- Witness for C7's theorem: the first thread function on an empty container
returns normally with its exception deposited. -/
theorem worker_never_unwinds_witness :
    thread_func1 [] = Except.ok ([] ++ [CppExc.runtimeError "exception 1"]) :=
  (worker_never_unwinds func1 []).2.2.1

/-- Claim C8: whichever order the two workers deposit their distinct failures,
the main thread's reporting loop returns normally (no raw in-thread exception
reaches it) and reports both failures — not just the first — in exactly the
order they were inserted into the shared container. -/
theorem both_failures_reported (t1First : Bool) :
    ∃ box msgs, finalBox t1First = Except.ok box ∧ executeReport t1First = Except.ok msgs ∧
      msgs = box.map excMessage ∧ msgs.length = 2 ∧
      "exception 1" ∈ msgs ∧ "exception 2" ∈ msgs := by
  cases t1First with
  | false =>
    exact ⟨[CppExc.runtimeError "exception 2", CppExc.runtimeError "exception 1"],
      ["exception 2", "exception 1"], rfl, rfl, rfl, rfl, by simp, by simp⟩
  | true =>
    exact ⟨[CppExc.runtimeError "exception 1", CppExc.runtimeError "exception 2"],
      ["exception 1", "exception 2"], rfl, rfl, rfl, rfl, by simp, by simp⟩

end EB

end ModernCpp
